import Mathlib

/-!
Verification of the time-tracking session lifecycle of the
mercor_time_tracking repository: a shallow embedding of the server
controller (src/src/controllers/timeTrackingController.ts), the server
screenshot service (src/src/services/screenshotService.ts), the desktop
agent (src/desktop/src/services/TimeTrackingService.ts) and the MongoDB
initialization script, together with theorems about the session
lifecycle invariants.

Ids and timestamps are modelled as natural numbers (milliseconds for
timestamps).  Fallible operations are modelled with Except/Option; the
express error helper createError(message, status) is modelled by ApiErr.
-/

deriving instance DecidableEq for Except

namespace MercorTT

/-- Error produced by createError(message, statusCode) in
src/src/middleware/errorHandler.ts and surfaced over HTTP. -/
structure ApiErr where
  message : String
  status : Nat
deriving Repr, DecidableEq

/-- Screenshot settings of a project (src/src/models/Project.ts schema,
used by the controller as project.screenshotSettings). interval is
optional; the controller treats an absent or zero value as unset. -/
structure ScreenshotSettings where
  screenshotEnabled : Bool
  interval : Option Nat
deriving Repr, DecidableEq

/-- A project document: its id and the list of assigned employee ids,
plus optional screenshot settings (src/src/models/Project.ts). -/
structure Project where
  id : Nat
  employees : List Nat
  screenshotSettings : Option ScreenshotSettings
deriving Repr, DecidableEq

/-- A task document: its id, the project it belongs to, and the list of
assigned employee ids (src/src/models/Task.ts). -/
structure Task where
  id : Nat
  projectId : Nat
  employees : List Nat
deriving Repr, DecidableEq

/-- A time-entry document (src/src/types/models.d.ts, TimeEntryDocument):
employee/project/task references, start and optional end timestamps,
duration in milliseconds, isActive flag and the append-only list of
screenshot ids. -/
structure TimeEntry where
  id : Nat
  employeeId : Nat
  projectId : Nat
  taskId : Nat
  startTime : Nat
  endTime : Option Nat
  duration : Nat
  description : Option String
  isActive : Bool
  screenshots : List Nat
deriving Repr, DecidableEq

/-- The document store backing the server: the timeentries, projects and
tasks collections, plus a counter supplying fresh document ids. -/
structure Store where
  entries : List TimeEntry
  projects : List Project
  tasks : List Task
  nextEntryId : Nat
deriving Repr, DecidableEq

/-- TimeEntry.findOne with employeeId and isActive true, the active-entry
check of startTimeTracking (controller line 25). -/
def findOneActive (s : Store) (employeeId : Nat) : Option TimeEntry :=
  s.entries.find? (fun t => t.employeeId == employeeId && t.isActive)

/-- Project.findById (controller line 31). -/
def findProject (s : Store) (projectId : Nat) : Option Project :=
  s.projects.find? (fun p => p.id == projectId)

/-- Task.findById (controller line 41). -/
def findTask (s : Store) (taskId : Nat) : Option Task :=
  s.tasks.find? (fun t => t.id == taskId)

/-- Number of active time entries stored for an employee. -/
def countActive (s : Store) (employeeId : Nat) : Nat :=
  (s.entries.filter (fun t => t.employeeId == employeeId && t.isActive)).length

/-- TimeEntrySchema.statics.findActiveEntries of the TimeEntry model
(the second document concatenated into src/src/__tests__/employee.test.ts):
it queries isActive true and, when an employeeId is passed — as the
active-entries route and the desktop agent always do — that employeeId. -/
def findActiveEntries (s : Store) (employeeId : Nat) : List TimeEntry :=
  s.entries.filter (fun t => t.employeeId == employeeId && t.isActive)

/-- The outcome of each fallible step performed inside
ScreenshotService.captureScreenshot (src/src/services/screenshotService.ts
lines 41-86): screen grab, file write, thumbnail creation, fs.stat and
the database save that yields the screenshot record id. -/
structure CaptureEnv where
  grab : Except String Unit
  writeFile : Except String Unit
  thumbnail : Except String Unit
  statFile : Except String Nat
  saveRecord : Except String Nat
deriving Repr, DecidableEq

/-- The body of ScreenshotService.captureScreenshot before its catch
handler: the sequence of fallible steps, propagating the first failure,
and producing the saved record id on success. -/
def captureBody (env : CaptureEnv) : Except String Nat := do
  let _ ← env.grab
  let _ ← env.writeFile
  let _ ← env.thumbnail
  let _ ← env.statFile
  env.saveRecord

/-- ScreenshotService.captureScreenshot: the whole body runs inside
try/catch and any failure is logged and turned into null (lines 87-90),
so the caller sees Option rather than an exception. -/
def captureScreenshot (env : CaptureEnv) : Option Nat :=
  match captureBody env with
  | .ok sid => some sid
  | .error _ => none

/-- The fresh TimeEntry built by startTimeTracking (controller lines
54-62).  Per the TimeEntrySchema defaults (TimeEntry model concatenated
into src/src/__tests__/employee.test.ts), duration defaults to 0 and
screenshots to the empty list; the whole request runs at one model
instant now, so the pre-save hook's elapsed-time recomputation for the
just-created active entry (now minus startTime) is also 0. -/
def newEntry (id employeeId projectId taskId : Nat) (description : Option String)
    (now : Nat) : TimeEntry :=
  { id := id, employeeId := employeeId, projectId := projectId, taskId := taskId,
    startTime := now, endTime := none, duration := 0, description := description,
    isActive := true, screenshots := [] }

/-- The screenshot block of startTimeTracking (controller lines 66-80):
when the project has screenshotEnabled, one synchronous capture is
attempted and, if it yields an id, that id is appended to the entry;
a null capture result leaves the entry unchanged. -/
def maybeCapturedEntry (project : Project) (env : CaptureEnv) (entry : TimeEntry) :
    TimeEntry :=
  match project.screenshotSettings with
  | some ss =>
    if ss.screenshotEnabled then
      match captureScreenshot env with
      | some sid => { entry with screenshots := entry.screenshots ++ [sid] }
      | none => entry
    else entry
  | none => entry

/-- The interval value startTimeTracking computes when screenshots are
enabled: project.screenshotSettings.interval with 300000 (5 minutes) as
the default for a missing or zero (falsy) value (controller line 68).
The controller computes this value but never uses it: no recurring
capture schedule is started server-side. -/
def serverConfiguredInterval (ss : ScreenshotSettings) : Nat :=
  match ss.interval with
  | some n => if n = 0 then 300000 else n
  | none => 300000

/-- Everything startTimeTracking does after the active-entry check
(controller lines 30-104): project and task validation, creation and
save of the entry, and the optional synchronous screenshot capture. -/
def startRestPhase (s : Store) (employeeId projectId taskId : Nat)
    (description : Option String) (now : Nat) (env : CaptureEnv) :
    Except ApiErr (Store × TimeEntry) :=
  match findProject s projectId with
  | none => .error ⟨"Project not found", 404⟩
  | some project =>
    if !(project.employees.contains employeeId) then
      .error ⟨"Employee not assigned to project", 403⟩
    else
      match findTask s taskId with
      | none => .error ⟨"Task not found", 404⟩
      | some task =>
        if !(task.employees.contains employeeId) then
          .error ⟨"Employee not assigned to task", 403⟩
        else
          let entry := maybeCapturedEntry project env
            (newEntry s.nextEntryId employeeId projectId taskId description now)
          .ok ({ s with entries := s.entries ++ [entry],
                        nextEntryId := s.nextEntryId + 1 }, entry)

/-- startTimeTracking (controller lines 16-104): the active-entry check
followed by the validation/creation phase. -/
def startTimeTracking (s : Store) (employeeId projectId taskId : Nat)
    (description : Option String) (now : Nat) (env : CaptureEnv) :
    Except ApiErr (Store × TimeEntry) :=
  match findOneActive s employeeId with
  | some _ => .error ⟨"Employee already has an active time entry", 400⟩
  | none => startRestPhase s employeeId projectId taskId description now env

/-- The HTTP status the start route answers with: 201 on success
(controller line 103), the error status otherwise. -/
def startHttpStatus (r : Except ApiErr (Store × TimeEntry)) : Nat :=
  match r with
  | .ok _ => 201
  | .error e => e.status

/-- TimeEntrySchema.methods.stop of the TimeEntry model (concatenated
into src/src/__tests__/employee.test.ts): called by the controller with
no argument, it sets endTime to new Date() — the model instant now —
flips isActive to false and sets duration to endTime minus startTime;
the pre-save hook recomputes the same endTime-minus-startTime value on
the save.  In every run the stop instant is at or after startTime, so
natural subtraction matches the JavaScript difference. -/
def stopEntry (t : TimeEntry) (now : Nat) : TimeEntry :=
  { t with endTime := some now, duration := now - t.startTime, isActive := false }

/-- The optional description update of stopTimeTracking (controller
lines 130-132), applied only when a description was supplied:
TimeEntrySchema.methods.updateDescription stores the trimmed string and
saves (the pre-save hook re-trims, which changes nothing). -/
def applyDescription (t : TimeEntry) (d : Option String) : TimeEntry :=
  match d with
  | some s => { t with description := some s.trim }
  | none => t

/-- stopTimeTracking (controller lines 107-161): finds the entry by id,
employee and isActive true, answers 404 when absent, otherwise stops it,
applies the optional description and persists the update. -/
def stopTimeTracking (s : Store) (employeeId timeEntryId : Nat)
    (description : Option String) (now : Nat) : Except ApiErr (Store × TimeEntry) :=
  match s.entries.find? (fun t =>
      t.id == timeEntryId && t.employeeId == employeeId && t.isActive) with
  | none => .error ⟨"Active time entry not found", 404⟩
  | some t =>
    let t2 := applyDescription (stopEntry t now) description
    .ok ({ s with entries := s.entries.map (fun u => if u.id == t.id then t2 else u) },
         t2)

/-- The indexes the MongoDB initialization script creates on the
timeentries collection (src/unnamed/part_011): five single-field
indexes, none passing a unique option.  Each pair records the indexed
field names and whether the index is unique. -/
def initScriptTimeentriesIndexes : List (List String × Bool) :=
  [(["employeeId"], false), (["projectId"], false), (["taskId"], false),
   (["startTime"], false), (["isActive"], false)]

/-- The indexes TimeEntrySchema declares on the model (concatenated into
src/src/__tests__/employee.test.ts): seven single-field and four
compound indexes — among them the compound (employeeId, isActive) index
— every one declared for query performance with no unique option. -/
def timeEntrySchemaIndexes : List (List String × Bool) :=
  [(["employeeId"], false), (["projectId"], false), (["taskId"], false),
   (["startTime"], false), (["endTime"], false), (["isActive"], false),
   (["createdAt"], false),
   (["employeeId", "startTime"], false), (["projectId", "startTime"], false),
   (["taskId", "startTime"], false), (["employeeId", "isActive"], false)]

/-- Every index declared on the timeentries collection, by the
initialization script or by the schema. -/
def timeentriesIndexes : List (List String × Bool) :=
  initScriptTimeentriesIndexes ++ timeEntrySchemaIndexes

/-! Desktop agent (src/desktop/src/services/TimeTrackingService.ts). -/

/-- Agent settings held in the electron store
(settings.screenshotInterval, read by startScreenshotCapture). -/
structure Settings where
  screenshotInterval : Option Nat
deriving Repr, DecidableEq

/-- The agent's durable local key/value store (StoreService): the
activeTimeEntry key and the settings key. -/
structure LocalStore where
  activeTimeEntry : Option TimeEntry
  settings : Option Settings
deriving Repr, DecidableEq

/-- The in-memory state of TimeTrackingService: the activeEntry field,
the screenshotInterval timer handle (recorded with its interval when
running) and the isInitialized flag. -/
structure AgentState where
  activeEntry : Option TimeEntry
  screenshotTimer : Option Nat
  isInitialized : Bool
deriving Repr, DecidableEq

/-- The interval startScreenshotCapture reads (line 178-179):
settings.screenshotInterval when present, 300000 (5 minutes) otherwise.
The nullish fallback applies only to an absent value; no lower floor is
applied. -/
def effectiveInterval (settings : Option Settings) : Nat :=
  match settings with
  | some st =>
    match st.screenshotInterval with
    | some n => n
    | none => 300000
  | none => 300000

/-- TimeTrackingService.startScreenshotCapture (lines 172-192): a no-op
when the timer is already running, otherwise arms the recurring timer at
the effective interval. -/
def startScreenshotCapture (store : LocalStore) (a : AgentState) : AgentState :=
  match a.screenshotTimer with
  | some _ => a
  | none => { a with screenshotTimer := some (effectiveInterval store.settings) }

/-- TimeTrackingService.stopScreenshotCapture (lines 194-200): clears
the recurring timer (a no-op when it is not running). -/
def stopScreenshotCapture (a : AgentState) : AgentState :=
  { a with screenshotTimer := none }

/-- TimeTrackingService.initialize (lines 54-79): when not yet
initialized and an auth token is stored, loads activeTimeEntry from the
local store into memory and, when it is present and marked active,
resumes screenshot capture; then marks the service initialized.  The
local store is returned unchanged: initialize performs no writes to it
and consults no server endpoint. -/
def agentInitialize (hasToken : Bool) (store : LocalStore) (a : AgentState) :
    AgentState × LocalStore :=
  if a.isInitialized then (a, store)
  else if hasToken then
    let a1 := { a with activeEntry := store.activeTimeEntry }
    let a2 :=
      match store.activeTimeEntry with
      | some t => if t.isActive then startScreenshotCapture store a1 else a1
      | none => a1
    ({ a2 with isInitialized := true }, store)
  else ({ a with isInitialized := true }, store)

/-- TimeTrackingService.startTracking (lines 81-111): rejects when an
activeEntry is already held, otherwise takes the server's response
entry, stores it in memory and in the local store, and starts screenshot
capture.  The server call is passed in as its result. -/
def agentStartTracking (apiResult : Except ApiErr TimeEntry) (store : LocalStore)
    (a : AgentState) : Except String (AgentState × LocalStore × TimeEntry) :=
  match a.activeEntry with
  | some _ => .error "Time tracking is already active"
  | none =>
    match apiResult with
    | .error e => .error e.message
    | .ok entry =>
      let a1 := { a with activeEntry := some entry }
      let store1 := { store with activeTimeEntry := some entry }
      let a2 := startScreenshotCapture store1 a1
      .ok (a2, store1, entry)

/-- TimeTrackingService.stopTracking (lines 113-143): rejects when no
activeEntry is held or the id differs; otherwise records the server's
stopped entry, stops screenshot capture, deletes the stored
activeTimeEntry and clears the in-memory entry, returning the stopped
entry. -/
def agentStopTracking (timeEntryId : Nat) (apiResult : Except ApiErr TimeEntry)
    (store : LocalStore) (a : AgentState) :
    Except String (AgentState × LocalStore × TimeEntry) :=
  match a.activeEntry with
  | none => .error "No active time entry found"
  | some cur =>
    if cur.id == timeEntryId then
      match apiResult with
      | .error e => .error e.message
      | .ok stopped =>
        let a1 := { a with activeEntry := some stopped }
        let a2 := stopScreenshotCapture a1
        let store1 := { store with activeTimeEntry := none }
        let a3 := { a2 with activeEntry := none }
        .ok (a3, store1, stopped)
    else .error "No active time entry found"

/-- TimeTrackingService.getActiveEntry (lines 145-160): answers the
in-memory entry when held, otherwise takes the first element of the
server's active-entry list (data[0] or null), caches it and answers it.
More than one server entry is not treated specially. -/
def agentGetActiveEntry (apiData : List TimeEntry) (a : AgentState) :
    AgentState × Option TimeEntry :=
  match a.activeEntry with
  | some t => (a, some t)
  | none =>
    let e := apiData.head?
    ({ a with activeEntry := e }, e)

/-- The trackingDuration getter (lines 260-265): 0 when no active entry
is held, otherwise now minus the entry's startTime, as JavaScript number
subtraction (modelled over the integers). -/
def trackingDuration (activeEntry : Option TimeEntry) (now : Int) : Int :=
  match activeEntry with
  | none => 0
  | some t => if t.isActive then now - (t.startTime : Int) else 0

/-- One firing opportunity of the recurring timer (the setInterval
callback of lines 181-189): the callback can run only while the timer
handle is set, and attempts a capture only when the in-memory
activeEntry is present and marked active.  The callback changes neither
the activeEntry nor the timer handle.  The Bool records whether a
capture attempt began. -/
def timerTick (a : AgentState) : AgentState × Bool :=
  match a.screenshotTimer with
  | none => (a, false)
  | some _ =>
    match a.activeEntry with
    | some t => (a, t.isActive)
    | none => (a, false)

/-- Whether any capture attempt begins within the next n timer firing
opportunities. -/
def ticksAttemptCapture (a : AgentState) : Nat → Bool
  | 0 => false
  | n + 1 =>
    let r := timerTick a
    r.2 || ticksAttemptCapture r.1 n

/-! Interleaving model of two concurrent start requests.  The controller
performs the active-entry read (line 25) and the rest of the handler as
separate awaited steps against the shared store, so two requests may
interleave between the check and the insert. -/

/-- The parameters of one start request. -/
structure StartReq where
  employeeId : Nat
  projectId : Nat
  taskId : Nat
  description : Option String
  now : Nat
  env : CaptureEnv
deriving Repr, DecidableEq

/-- Progress of one in-flight start request: not yet run, past the
active-entry check (recording whether it saw a conflict), or finished
with its response. -/
inductive ReqPhase where
  | pending
  | checked (conflict : Bool)
  | done (res : Except ApiErr TimeEntry)
deriving Repr, DecidableEq

/-- Whether a finished request ended in a success response. -/
def ReqPhase.isOkDone : ReqPhase → Bool
  | .done (.ok _) => true
  | _ => false

/-- One scheduler-granted step of a start request against the shared
store: the pending step performs the findOne active-entry check; a
checked request either answers the conflict error or runs the remainder
of the handler (validation, creation, save). -/
def stepReq (rq : StartReq) (ph : ReqPhase) (s : Store) : ReqPhase × Store :=
  match ph with
  | .pending => (.checked (findOneActive s rq.employeeId).isSome, s)
  | .checked true =>
    (.done (.error ⟨"Employee already has an active time entry", 400⟩), s)
  | .checked false =>
    match startRestPhase s rq.employeeId rq.projectId rq.taskId rq.description
        rq.now rq.env with
    | .ok (s1, t) => (.done (.ok t), s1)
    | .error e => (.done (.error e), s)
  | .done r => (.done r, s)

/-- The joint state of two in-flight start requests and the store. -/
structure ConcState where
  store : Store
  phA : ReqPhase
  phB : ReqPhase
deriving Repr, DecidableEq

/-- Run one scheduler step: false advances request A, true advances
request B. -/
def stepConc (rqA rqB : StartReq) (which : Bool) (c : ConcState) : ConcState :=
  if which then
    let r := stepReq rqB c.phB c.store
    { c with phB := r.1, store := r.2 }
  else
    let r := stepReq rqA c.phA c.store
    { c with phA := r.1, store := r.2 }

/-- Run a whole interleaving schedule. -/
def runSchedule (rqA rqB : StartReq) (sched : List Bool) (c : ConcState) : ConcState :=
  sched.foldl (fun acc w => stepConc rqA rqB w acc) c

/-! Concrete example inputs used by witnesses and counterexamples. -/

/-- A capture environment in which every step succeeds. -/
def envOk : CaptureEnv := ⟨.ok (), .ok (), .ok (), .ok 2048, .ok 77⟩

/-- A capture environment in which the screen grab fails. -/
def envFail : CaptureEnv := ⟨.error "grab failed", .ok (), .ok (), .ok 2048, .ok 77⟩

/-- Project 10 with employee 1 assigned and no screenshot settings. -/
def project10 : Project := ⟨10, [1], none⟩

/-- Project 11 with employee 1 assigned and screenshots enabled. -/
def project11 : Project := ⟨11, [1], some ⟨true, some 120000⟩⟩

/-- Task 20 of project 10 with employee 1 assigned. -/
def task20 : Task := ⟨20, 10, [1]⟩

/-- Task 21 of project 11 with employee 1 assigned. -/
def task21 : Task := ⟨21, 11, [1]⟩

/-- An empty store that knows project 10/11 and task 20/21. -/
def store0 : Store := ⟨[], [project10, project11], [task20, task21], 0⟩

/-- A start request by employee 1 for project 10 / task 20. -/
def rq0 : StartReq := ⟨1, 10, 20, none, 0, envFail⟩

/-- A fresh agent state. -/
def agent0 : AgentState := ⟨none, none, false⟩

/-- An active entry as cached by the agent. -/
def entryCached : TimeEntry := ⟨7, 1, 10, 20, 0, none, 0, none, true, []⟩

/-- A local store whose cache still holds the active entry. -/
def storeCached : LocalStore := ⟨some entryCached, none⟩

/-- A server store in which that same entry has already been stopped
from another client. -/
def serverStoreStopped : Store :=
  ⟨[stopEntry entryCached 50000], [project10, project11], [task20, task21], 8⟩

/-- A task that exists but belongs to project 99, not project 10. -/
def taskForeign : Task := ⟨20, 99, [1]⟩

/-- A store in which task 20 belongs to project 99 while employee 1 is
assigned to both the project and the task. -/
def storeForeignTask : Store := ⟨[], [project10], [taskForeign], 0⟩

/-- Agent settings with a one-second screenshot interval. -/
def settingsSmall : Settings := ⟨some 1000⟩

/-- A local store carrying those settings. -/
def storeSmall : LocalStore := ⟨none, some settingsSmall⟩

/-- An entry as the server would answer a start request with. -/
def entryStarted : TimeEntry := ⟨3, 1, 11, 21, 0, none, 0, none, true, []⟩

/-- Two distinct active entries for employee 1, as a corrupted store
would answer the active query with. -/
def entryDupA : TimeEntry := ⟨1, 1, 10, 20, 0, none, 0, none, true, []⟩

/-- The second of the two duplicate active entries. -/
def entryDupB : TimeEntry := ⟨2, 1, 10, 20, 5, none, 0, none, true, []⟩

/-- A store for membership-error scenarios: project 12 has employees 1
and 2 but its task 22 only employee 1. -/
def storeVal : Store :=
  ⟨[], [project10, ⟨12, [1, 2], none⟩], [task20, ⟨22, 12, [1]⟩], 0⟩

/-- A store holding one active entry (id 5, employee 1, started at
100000). -/
def storeOneActive : Store :=
  ⟨[⟨5, 1, 10, 20, 100000, none, 0, none, true, []⟩],
   [project10, project11], [task20, task21], 6⟩

/-! Helper lemmas. -/

/-- The screenshot block leaves the entry unchanged or appends exactly
one screenshot id. -/
theorem maybeCapturedEntry_cases (project : Project) (env : CaptureEnv)
    (entry : TimeEntry) :
    maybeCapturedEntry project env entry = entry ∨
    ∃ sid, maybeCapturedEntry project env entry =
      { entry with screenshots := entry.screenshots ++ [sid] } := by
  unfold maybeCapturedEntry
  cases project.screenshotSettings with
  | none => exact Or.inl rfl
  | some ss =>
    cases h : ss.screenshotEnabled with
    | false => simp [h]
    | true =>
      simp only [h, if_true]
      cases captureScreenshot env with
      | none => exact Or.inl rfl
      | some sid => exact Or.inr ⟨sid, rfl⟩

/-- The screenshot block does not touch any lifecycle field of the
entry and appends at most one screenshot. -/
theorem maybeCapturedEntry_fields (project : Project) (env : CaptureEnv)
    (entry : TimeEntry) :
    (maybeCapturedEntry project env entry).id = entry.id ∧
    (maybeCapturedEntry project env entry).employeeId = entry.employeeId ∧
    (maybeCapturedEntry project env entry).isActive = entry.isActive ∧
    (maybeCapturedEntry project env entry).startTime = entry.startTime ∧
    (maybeCapturedEntry project env entry).screenshots.length ≤
      entry.screenshots.length + 1 := by
  rcases maybeCapturedEntry_cases project env entry with h | ⟨sid, h⟩ <;> simp [h]

/-- Inversion of the validation/creation phase: success pins down the
project and task lookups, the membership checks, the produced entry and
the new store. -/
theorem startRestPhase_ok_inv {s : Store} {e p t : Nat} {d : Option String}
    {now : Nat} {env : CaptureEnv} {s1 : Store} {en : TimeEntry}
    (h : startRestPhase s e p t d now env = .ok (s1, en)) :
    ∃ project task,
      findProject s p = some project ∧ project.employees.contains e = true ∧
      findTask s t = some task ∧ task.employees.contains e = true ∧
      en = maybeCapturedEntry project env (newEntry s.nextEntryId e p t d now) ∧
      s1 = { s with entries := s.entries ++ [en],
                    nextEntryId := s.nextEntryId + 1 } := by
  unfold startRestPhase at h
  cases hproj : findProject s p with
  | none => rw [hproj] at h; exact absurd h (by simp)
  | some project =>
    rw [hproj] at h
    simp only [] at h
    cases hmem : project.employees.contains e with
    | false => rw [hmem] at h; exact absurd h (by simp)
    | true =>
      rw [hmem] at h
      simp only [Bool.not_true, Bool.false_eq_true, if_false] at h
      cases htask : findTask s t with
      | none => rw [htask] at h; exact absurd h (by simp)
      | some task =>
        rw [htask] at h
        simp only [] at h
        cases htm : task.employees.contains e with
        | false => rw [htm] at h; exact absurd h (by simp)
        | true =>
          rw [htm] at h
          simp only [Bool.not_true, Bool.false_eq_true, if_false,
            Except.ok.injEq, Prod.mk.injEq] at h
          obtain ⟨hs, he⟩ := h
          refine ⟨project, task, rfl, hmem, rfl, htm, he.symm, ?_⟩
          rw [← hs, he]

/-- Forward direction: when the validations pass, the phase succeeds
with the captured entry appended to the store. -/
theorem startRestPhase_ok_of {s : Store} {e p t : Nat} (d : Option String)
    (now : Nat) (env : CaptureEnv) {project : Project} {task : Task}
    (hproj : findProject s p = some project)
    (hmem : project.employees.contains e = true)
    (htask : findTask s t = some task)
    (htm : task.employees.contains e = true) :
    startRestPhase s e p t d now env =
      .ok ({ s with
              entries := s.entries ++
                [maybeCapturedEntry project env (newEntry s.nextEntryId e p t d now)],
              nextEntryId := s.nextEntryId + 1 },
           maybeCapturedEntry project env (newEntry s.nextEntryId e p t d now)) := by
  unfold startRestPhase
  rw [hproj]
  simp only [hmem, Bool.not_true, Bool.false_eq_true, if_false]
  rw [htask]
  simp only [htm, Bool.not_true, Bool.false_eq_true, if_false]

/-- Inversion of the active-entry check of startTimeTracking. -/
theorem startTimeTracking_ok_inv {s : Store} {e p t : Nat} {d : Option String}
    {now : Nat} {env : CaptureEnv} {s1 : Store} {en : TimeEntry}
    (h : startTimeTracking s e p t d now env = .ok (s1, en)) :
    findOneActive s e = none ∧ startRestPhase s e p t d now env = .ok (s1, en) := by
  unfold startTimeTracking at h
  cases hf : findOneActive s e with
  | some t0 => rw [hf] at h; exact absurd h (by simp)
  | none => rw [hf] at h; exact ⟨rfl, h⟩

/-- Success of startTimeTracking yields an active entry for the
requesting employee appended to an otherwise-unchanged store. -/
theorem startTimeTracking_ok_shape {s : Store} {e p t : Nat} {d : Option String}
    {now : Nat} {env : CaptureEnv} {s1 : Store} {en : TimeEntry}
    (h : startTimeTracking s e p t d now env = .ok (s1, en)) :
    findOneActive s e = none ∧
    s1.entries = s.entries ++ [en] ∧ s1.projects = s.projects ∧
    s1.tasks = s.tasks ∧
    en.employeeId = e ∧ en.isActive = true ∧ en.startTime = now := by
  obtain ⟨hf, hrest⟩ := startTimeTracking_ok_inv h
  obtain ⟨project, task, hproj, hmem, htask, htm, hen, hs1⟩ :=
    startRestPhase_ok_inv hrest
  have hfields := maybeCapturedEntry_fields project env
    (newEntry s.nextEntryId e p t d now)
  rw [← hen] at hfields
  refine ⟨hf, ?_, ?_, ?_, ?_, ?_, ?_⟩
  · rw [hs1]
  · rw [hs1]
  · rw [hs1]
  · rw [hfields.2.1]; rfl
  · rw [hfields.2.2.1]; rfl
  · rw [hfields.2.2.2.1]; rfl

/-- With no stored active entry, the active filter for that employee is
empty. -/
theorem filter_active_nil {s : Store} {e : Nat} (hf : findOneActive s e = none) :
    s.entries.filter (fun t => t.employeeId == e && t.isActive) = [] := by
  refine List.filter_eq_nil_iff.mpr ?_
  intro a ha
  exact List.find?_eq_none.mp hf a ha

/-- C1: for every employee at most one TimeEntry is active at a time in
the sequential model: after a successful start, a second start call for
the same employee (with any arguments) answers the conflict error with
HTTP status 400 and creates nothing, the store shows exactly one active
entry for that employee, and the at-most-one-active invariant is
preserved for every employee. -/
theorem startTimeTracking_second_call_conflict
    (s : Store) (e p t : Nat) (d : Option String) (now : Nat) (env : CaptureEnv)
    (s1 : Store) (en : TimeEntry)
    (h : startTimeTracking s e p t d now env = .ok (s1, en)) :
    (∀ p' t' d' now' env',
        startTimeTracking s1 e p' t' d' now' env' =
          .error ⟨"Employee already has an active time entry", 400⟩) ∧
    countActive s1 e = 1 ∧
    (∀ e', countActive s e' ≤ 1 → countActive s1 e' ≤ 1) := by
  obtain ⟨hf, hents, -, -, hemp, hact, -⟩ := startTimeTracking_ok_shape h
  have hfind : findOneActive s1 e = some en := by
    unfold findOneActive at hf ⊢
    rw [hents, List.find?_append, hf]
    simp [List.find?, hemp, hact]
  refine ⟨?_, ?_, ?_⟩
  · intro p' t' d' now' env'
    unfold startTimeTracking
    rw [hfind]
  · unfold countActive
    rw [hents, List.filter_append, filter_active_nil hf]
    simp [hemp, hact]
  · intro e' he'
    unfold countActive at he' ⊢
    rw [hents, List.filter_append]
    by_cases hee : e' = e
    · subst hee
      rw [filter_active_nil hf]
      simp [hemp, hact]
    · have hne : (en.employeeId == e' && en.isActive) = false := by
        rw [hemp]
        simp only [Bool.and_eq_false_iff]
        exact Or.inl (by simpa [beq_iff_eq] using fun hc => hee hc.symm)
      simpa [List.filter, hne] using he'

/-- Witness for C1 at a concrete store: employee 1 starts on project 10
/ task 20, the second start call answers the 400 conflict error, and the
store shows exactly one active entry. -/
theorem startTimeTracking_second_call_conflict_witness :
    startTimeTracking
        (⟨[⟨0, 1, 10, 20, 0, none, 0, none, true, []⟩],
          [project10, project11], [task20, task21], 1⟩ : Store)
        1 10 20 none 5 envFail =
      .error ⟨"Employee already has an active time entry", 400⟩ ∧
    countActive
      (⟨[⟨0, 1, 10, 20, 0, none, 0, none, true, []⟩],
        [project10, project11], [task20, task21], 1⟩ : Store) 1 = 1 := by
  have hstart : startTimeTracking store0 1 10 20 none 0 envFail =
      .ok (⟨[⟨0, 1, 10, 20, 0, none, 0, none, true, []⟩],
            [project10, project11], [task20, task21], 1⟩,
           ⟨0, 1, 10, 20, 0, none, 0, none, true, []⟩) := by decide
  have hmain := startTimeTracking_second_call_conflict store0 1 10 20 none 0 envFail
    _ _ hstart
  exact ⟨hmain.1 10 20 none 5 envFail, hmain.2.1⟩

/-- The optional description update changes no field but the
description. -/
theorem applyDescription_fields (t : TimeEntry) (d : Option String) :
    (applyDescription t d).id = t.id ∧
    (applyDescription t d).employeeId = t.employeeId ∧
    (applyDescription t d).isActive = t.isActive ∧
    (applyDescription t d).duration = t.duration ∧
    (applyDescription t d).startTime = t.startTime ∧
    (applyDescription t d).endTime = t.endTime := by
  cases d <;> simp [applyDescription]

/-- Inversion of stopTimeTracking: success pins down the found entry,
the returned stopped entry and the new store. -/
theorem stopTimeTracking_ok_inv {s : Store} {e id : Nat} {d : Option String}
    {now : Nat} {s1 : Store} {t1 : TimeEntry}
    (h : stopTimeTracking s e id d now = .ok (s1, t1)) :
    ∃ t, s.entries.find?
        (fun u => u.id == id && u.employeeId == e && u.isActive) = some t ∧
      t1 = applyDescription (stopEntry t now) d ∧
      s1 = { s with
              entries := s.entries.map (fun u => if u.id == t.id then t1 else u) } := by
  unfold stopTimeTracking at h
  cases hf : s.entries.find?
      (fun u => u.id == id && u.employeeId == e && u.isActive) with
  | none => rw [hf] at h; exact absurd h (by simp)
  | some t =>
    rw [hf] at h
    simp only [Except.ok.injEq, Prod.mk.injEq] at h
    obtain ⟨hs, ht⟩ := h
    exact ⟨t, rfl, ht.symm, by rw [← hs, ht]⟩

/-- C4: StopSession succeeds exactly when an entry with the given id
exists for the requesting employee and is active, and answers the 404
not-found error otherwise; after a successful stop the returned entry is
inactive with frozen duration, and a second stop of the same id answers
the 404 error (so the duration is not recomputed: the error path writes
nothing). -/
theorem stopTimeTracking_once (s : Store) (e id : Nat) (d : Option String)
    (now : Nat) :
    ((∃ r, stopTimeTracking s e id d now = .ok r) ↔
       ∃ t ∈ s.entries, t.id = id ∧ t.employeeId = e ∧ t.isActive = true) ∧
    ((¬ ∃ t ∈ s.entries, t.id = id ∧ t.employeeId = e ∧ t.isActive = true) →
       stopTimeTracking s e id d now = .error ⟨"Active time entry not found", 404⟩) ∧
    (∀ s1 t1 d2 now2, stopTimeTracking s e id d now = .ok (s1, t1) →
       t1.isActive = false ∧ t1.duration = now - t1.startTime ∧
       t1.endTime = some now ∧
       stopTimeTracking s1 e id d2 now2 =
         .error ⟨"Active time entry not found", 404⟩) := by
  refine ⟨⟨?_, ?_⟩, ?_, ?_⟩
  · rintro ⟨r, hr⟩
    obtain ⟨rs, rt⟩ := r
    obtain ⟨t, hf, -, -⟩ := stopTimeTracking_ok_inv hr
    have hP := List.find?_some hf
    simp only [Bool.and_eq_true, beq_iff_eq] at hP
    exact ⟨t, List.mem_of_find?_eq_some hf, hP.1.1, hP.1.2, hP.2⟩
  · rintro ⟨t, hmem, hid, hemp, hact⟩
    have : (s.entries.find?
        (fun u => u.id == id && u.employeeId == e && u.isActive)).isSome := by
      refine List.find?_isSome.mpr ⟨t, hmem, ?_⟩
      simp [hid, hemp, hact]
    unfold stopTimeTracking
    cases hf : s.entries.find?
        (fun u => u.id == id && u.employeeId == e && u.isActive) with
    | none => rw [hf] at this; simp at this
    | some t0 => exact ⟨_, rfl⟩
  · intro hno
    have hf : s.entries.find?
        (fun u => u.id == id && u.employeeId == e && u.isActive) = none := by
      refine List.find?_eq_none.mpr ?_
      intro x hx hP
      simp only [Bool.and_eq_true, beq_iff_eq] at hP
      exact hno ⟨x, hx, hP.1.1, hP.1.2, hP.2⟩
    unfold stopTimeTracking
    rw [hf]
  · intro s1 t1 d2 now2 h
    obtain ⟨t, hf, ht1, hs1⟩ := stopTimeTracking_ok_inv h
    have hfields := applyDescription_fields (stopEntry t now) d
    rw [← ht1] at hfields
    have hP := List.find?_some hf
    simp only [Bool.and_eq_true, beq_iff_eq] at hP
    have hact1 : t1.isActive = false := by
      rw [hfields.2.2.1]; rfl
    have hdur : t1.duration = now - t1.startTime := by
      have h1 : t1.duration = now - t.startTime := by
        rw [hfields.2.2.2.1]; rfl
      have h2 : t1.startTime = t.startTime := by
        rw [hfields.2.2.2.2.1]; rfl
      rw [h1, h2]
    have hend : t1.endTime = some now := by
      rw [hfields.2.2.2.2.2]; rfl
    refine ⟨hact1, hdur, hend, ?_⟩
    have hnone : s1.entries.find?
        (fun u => u.id == id && u.employeeId == e && u.isActive) = none := by
      refine List.find?_eq_none.mpr ?_
      intro x hx hPx
      rw [hs1] at hx
      simp only [List.mem_map] at hx
      obtain ⟨v, hv, hfv⟩ := hx
      by_cases hvt : v.id == t.id
      · rw [if_pos hvt] at hfv
        rw [← hfv] at hPx
        simp only [Bool.and_eq_true] at hPx
        rw [hact1] at hPx
        exact Bool.false_ne_true hPx.2
      · rw [if_neg hvt] at hfv
        rw [← hfv] at hPx
        simp only [Bool.and_eq_true, beq_iff_eq] at hPx
        exact hvt (by rw [hPx.1.1, hP.1.1]; simp)
    unfold stopTimeTracking
    rw [hnone]

/-- Witness for C4 at a concrete store: stopping entry 5 succeeds once,
and stopping it again on the updated store answers the 404 error. -/
theorem stopTimeTracking_once_witness :
    (∃ r, stopTimeTracking storeOneActive 1 5 none 225000 = .ok r) ∧
    stopTimeTracking
        (⟨[⟨5, 1, 10, 20, 100000, some 225000, 125000, none, false, []⟩],
          [project10, project11], [task20, task21], 6⟩ : Store)
        1 5 none 300000 = .error ⟨"Active time entry not found", 404⟩ := by
  have hmain := stopTimeTracking_once storeOneActive 1 5 none 225000
  refine ⟨hmain.1.mpr (by decide), ?_⟩
  exact (hmain.2.2
    (⟨[⟨5, 1, 10, 20, 100000, some 225000, 125000, none, false, []⟩],
      [project10, project11], [task20, task21], 6⟩ : Store)
    (⟨5, 1, 10, 20, 100000, some 225000, 125000, none, false, []⟩ : TimeEntry)
    none 300000 (by decide)).2.2.2

/-- C5: a session started at T0 records startTime T0; stopping at T1
freezes duration as exactly T1 minus T0; while active, the agent's
duration read at time T answers T minus T0; and duration reads are
monotone between successive polls. -/
theorem duration_correct :
    (∀ s e p t d T0 env s1 en,
       startTimeTracking s e p t d T0 env = .ok (s1, en) → en.startTime = T0) ∧
    (∀ s e id d T1 s1 t1, stopTimeTracking s e id d T1 = .ok (s1, t1) →
       t1.startTime ≤ T1 → (t1.duration : Int) = (T1 : Int) - (t1.startTime : Int)) ∧
    (∀ t (T : Int), t.isActive = true →
       trackingDuration (some t) T = T - (t.startTime : Int)) ∧
    (∀ a (T T2 : Int), T ≤ T2 → trackingDuration a T ≤ trackingDuration a T2) := by
  refine ⟨?_, ?_, ?_, ?_⟩
  · intro s e p t d T0 env s1 en h
    exact (startTimeTracking_ok_shape h).2.2.2.2.2.2
  · intro s e id d T1 s1 t1 h hle
    have hdur := ((stopTimeTracking_once s e id d T1).2.2 s1 t1 none 0 h).2.1
    rw [hdur]
    omega
  · intro t T h
    simp [trackingDuration, h]
  · intro a T T2 hle
    cases a with
    | none => simp [trackingDuration]
    | some t =>
      cases h : t.isActive with
      | false => simp [trackingDuration, h]
      | true => simp only [trackingDuration, h, if_true]; omega

/-- Witness for C5 at a concrete run: entry 5 started at 100000 and
stopped at 225000 has duration 125000; the live read at 160000 answers
60000 and at 170000 answers 70000. -/
theorem duration_correct_witness :
    (⟨5, 1, 10, 20, 100000, some 225000, 125000, none, false, []⟩ :
        TimeEntry).duration = 125000 ∧
    trackingDuration (some entryDupA) 160000 = 160000 ∧
    trackingDuration (some entryDupA) 160000 ≤
      trackingDuration (some entryDupA) 170000 := by
  have hmain := duration_correct
  have hstop := hmain.2.1 storeOneActive 1 5 none 225000
    (⟨[⟨5, 1, 10, 20, 100000, some 225000, 125000, none, false, []⟩],
      [project10, project11], [task20, task21], 6⟩ : Store)
    (⟨5, 1, 10, 20, 100000, some 225000, 125000, none, false, []⟩ : TimeEntry)
    (by decide) (by decide)
  have hlive := hmain.2.2.1 entryDupA 160000 (by decide)
  have hmono := hmain.2.2.2 (some entryDupA) 160000 170000 (by decide)
  refine ⟨?_, ?_, hmono⟩
  · decide
  · rw [hlive]; decide

/-- While the timer handle is clear, no sequence of firing
opportunities attempts a capture. -/
theorem ticksAttemptCapture_of_no_timer (a : AgentState)
    (h : a.screenshotTimer = none) : ∀ n, ticksAttemptCapture a n = false := by
  intro n
  induction n with
  | zero => rfl
  | succ n ih =>
    simp only [ticksAttemptCapture, timerTick, h]
    simpa using ih

/-- C9: after a successful agent stop the recurring timer is cleared,
and no capture attempt begins on any number of later timer firing
opportunities, even ones that were already pending. -/
theorem no_capture_after_stop (timeEntryId : Nat) (api : Except ApiErr TimeEntry)
    (store : LocalStore) (a : AgentState) (a1 : AgentState) (store1 : LocalStore)
    (t : TimeEntry)
    (h : agentStopTracking timeEntryId api store a = .ok (a1, store1, t)) :
    a1.screenshotTimer = none ∧ ∀ n, ticksAttemptCapture a1 n = false := by
  unfold agentStopTracking at h
  split at h
  · exact absurd h (by simp)
  · split at h
    · split at h
      · exact absurd h (by simp)
      · simp only [Except.ok.injEq, Prod.mk.injEq] at h
        obtain ⟨ha, -, -⟩ := h
        have hnone : a1.screenshotTimer = none := by rw [← ha]; rfl
        exact ⟨hnone, ticksAttemptCapture_of_no_timer a1 hnone⟩
    · exact absurd h (by simp)

/-- Witness for C9 at a concrete agent: stopping entry 1 clears the
timer, and five subsequent firing opportunities attempt no capture. -/
theorem no_capture_after_stop_witness :
    (⟨none, none, true⟩ : AgentState).screenshotTimer = none ∧
    ticksAttemptCapture (⟨none, none, true⟩ : AgentState) 5 = false := by
  have hmain := no_capture_after_stop 1 (.ok (stopEntry entryDupA 9000))
    (⟨some entryDupA, some settingsSmall⟩ : LocalStore)
    (⟨some entryDupA, some 1000, true⟩ : AgentState)
    (⟨none, none, true⟩ : AgentState)
    (⟨none, some settingsSmall⟩ : LocalStore)
    (stopEntry entryDupA 9000) (by decide)
  exact ⟨hmain.1, hmain.2 5⟩

/-- C3 amended: on startup with a stored auth token the agent reads the
cached active session and, when one is present and marked active,
resumes screenshot capture directly from the cache at the locally
configured interval; initialization consults no server endpoint and
never writes the local cache. -/
theorem initialize_resumes_from_cache (store : LocalStore) (a : AgentState)
    (t : TimeEntry) (hinit : a.isInitialized = false)
    (htimer : a.screenshotTimer = none)
    (hcache : store.activeTimeEntry = some t) (hact : t.isActive = true) :
    (agentInitialize true store a).1.screenshotTimer =
      some (effectiveInterval store.settings) ∧
    (agentInitialize true store a).1.activeEntry = some t ∧
    (∀ hasToken st b, (agentInitialize hasToken st b).2 = st) := by
  refine ⟨?_, ?_, ?_⟩
  · simp [agentInitialize, hinit, hcache, hact, startScreenshotCapture, htimer]
  · simp [agentInitialize, hinit, hcache, hact, startScreenshotCapture, htimer]
  · intro hasToken st b
    unfold agentInitialize
    split
    · rfl
    · split
      · rfl
      · rfl

/-- Witness for C3's amended statement at a concrete cache. -/
theorem initialize_resumes_from_cache_witness :
    (agentInitialize true storeCached agent0).1.screenshotTimer =
      some (effectiveInterval storeCached.settings) ∧
    (agentInitialize true storeCached agent0).1.activeEntry =
      some entryCached := by
  have hmain := initialize_resumes_from_cache storeCached agent0 entryCached
    (by decide) (by decide) (by decide) (by decide)
  exact ⟨hmain.1, hmain.2.1⟩

/-- C3 counterexample: the cache still holds entry 7 marked active while
the server store already shows it stopped; initialize resumes capture at
the default interval from the cache alone and leaves the cache in place,
contradicting the claimed revalidation against server truth. -/
theorem initialize_no_revalidation_counterexample :
    findActiveEntries serverStoreStopped 1 = [] ∧
    (agentInitialize true storeCached agent0).1.screenshotTimer = some 300000 ∧
    (agentInitialize true storeCached agent0).1.activeEntry = some entryCached ∧
    (agentInitialize true storeCached agent0).2 = storeCached := by decide

/-- C8 amended: getActiveEntry answers the in-memory entry when one is
held, and otherwise the first element of the server's list (or absence);
a longer list is not treated specially and no error is surfaced. -/
theorem getActiveEntry_returns_head (apiData : List TimeEntry) (a : AgentState) :
    (a.activeEntry = none → (agentGetActiveEntry apiData a).2 = apiData.head?) ∧
    (∀ t, a.activeEntry = some t → (agentGetActiveEntry apiData a).2 = some t) := by
  constructor
  · intro h
    unfold agentGetActiveEntry
    rw [h]
  · intro t h
    unfold agentGetActiveEntry
    rw [h]

/-- Witness for C8's amended statement on a two-entry server answer. -/
theorem getActiveEntry_returns_head_witness :
    (agentGetActiveEntry [entryDupA, entryDupB] agent0).2 =
      [entryDupA, entryDupB].head? :=
  (getActiveEntry_returns_head [entryDupA, entryDupB] agent0).1 (by decide)

/-- C8 counterexample: the store query answers two active entries for
employee 1, and getActiveEntry silently answers the first instead of
surfacing a consistency error. -/
theorem getActiveEntry_silently_picks_first :
    [entryDupA, entryDupB].length = 2 ∧ entryDupA ≠ entryDupB ∧
    (agentGetActiveEntry [entryDupA, entryDupB] agent0).2 = some entryDupA := by
  decide

/-- C7 amended: on a successful agent start a recurring capture schedule
is armed at the agent's locally stored settings interval — not the
project's configured interval — defaulting to 300000 ms (5 minutes) when
unset, and the stored value is used as-is with no minimum floor. -/
theorem capture_schedule_local_interval (apiEntry : TimeEntry)
    (store : LocalStore) (a : AgentState) (hno : a.activeEntry = none)
    (htimer : a.screenshotTimer = none) :
    (∃ a2 store1,
       agentStartTracking (.ok apiEntry) store a = .ok (a2, store1, apiEntry) ∧
       a2.screenshotTimer = some (effectiveInterval store.settings)) ∧
    (∀ n, effectiveInterval (some ⟨some n⟩) = n) ∧
    effectiveInterval none = 300000 := by
  refine ⟨?_, fun n => rfl, rfl⟩
  unfold agentStartTracking
  rw [hno]
  refine ⟨_, _, rfl, ?_⟩
  simp [startScreenshotCapture, htimer]

/-- Witness for C7's amended statement: with a locally stored 1000 ms
interval the armed timer fires every 1000 ms. -/
theorem capture_schedule_local_interval_witness :
    ∃ a2 store1,
      agentStartTracking (.ok entryStarted) storeSmall agent0 =
        .ok (a2, store1, entryStarted) ∧
      a2.screenshotTimer = some (effectiveInterval storeSmall.settings) :=
  (capture_schedule_local_interval entryStarted storeSmall agent0 (by decide)
    (by decide)).1

/-- C7 counterexample: the project's configured interval is 120000 ms,
yet after a successful start the agent's schedule fires every 1000 ms —
the locally stored settings value, below the claimed one-minute floor. -/
theorem capture_interval_no_floor_counterexample :
    agentStartTracking (.ok entryStarted) storeSmall agent0 =
      .ok (⟨some entryStarted, some 1000, false⟩,
           ⟨some entryStarted, some settingsSmall⟩, entryStarted) ∧
    serverConfiguredInterval ⟨true, some 120000⟩ = 120000 ∧
    (1000 : Nat) ≠ 120000 ∧ (1000 : Nat) < 60000 := by decide

/-- C6 amended: startTimeTracking answers the 404 not-found error when
the project or the task is missing and the 403 forbidden error when the
employee is not a member of the project or of the task; whether the task
belongs to the given project is not checked. -/
theorem start_validation_errors (s : Store) (e p t : Nat) (d : Option String)
    (now : Nat) (env : CaptureEnv) (hnone : findOneActive s e = none) :
    (findProject s p = none →
       startTimeTracking s e p t d now env = .error ⟨"Project not found", 404⟩) ∧
    (∀ project, findProject s p = some project →
       project.employees.contains e = false →
       startTimeTracking s e p t d now env =
         .error ⟨"Employee not assigned to project", 403⟩) ∧
    (∀ project, findProject s p = some project →
       project.employees.contains e = true → findTask s t = none →
       startTimeTracking s e p t d now env = .error ⟨"Task not found", 404⟩) ∧
    (∀ project task, findProject s p = some project →
       project.employees.contains e = true → findTask s t = some task →
       task.employees.contains e = false →
       startTimeTracking s e p t d now env =
         .error ⟨"Employee not assigned to task", 403⟩) := by
  refine ⟨?_, ?_, ?_, ?_⟩
  · intro hp
    simp [startTimeTracking, hnone, startRestPhase, hp]
  · intro project hp hmem
    have hmem2 : e ∉ project.employees := by simpa using hmem
    simp [startTimeTracking, hnone, startRestPhase, hp, hmem2]
  · intro project hp hmem ht
    have hmem2 : e ∈ project.employees := by simpa using hmem
    simp [startTimeTracking, hnone, startRestPhase, hp, hmem2, ht]
  · intro project task hp hmem ht htm
    have hmem2 : e ∈ project.employees := by simpa using hmem
    have htm2 : e ∉ task.employees := by simpa using htm
    simp [startTimeTracking, hnone, startRestPhase, hp, hmem2, ht, htm2]

/-- Witness for C6's amended statement: the four error answers at
concrete stores. -/
theorem start_validation_errors_witness :
    startTimeTracking storeVal 1 99 20 none 0 envFail =
      .error ⟨"Project not found", 404⟩ ∧
    startTimeTracking storeVal 2 10 20 none 0 envFail =
      .error ⟨"Employee not assigned to project", 403⟩ ∧
    startTimeTracking storeVal 1 10 99 none 0 envFail =
      .error ⟨"Task not found", 404⟩ ∧
    startTimeTracking storeVal 2 12 22 none 0 envFail =
      .error ⟨"Employee not assigned to task", 403⟩ := by
  refine ⟨?_, ?_, ?_, ?_⟩
  · exact (start_validation_errors storeVal 1 99 20 none 0 envFail
      (by decide)).1 (by decide)
  · exact (start_validation_errors storeVal 2 10 20 none 0 envFail
      (by decide)).2.1 project10 (by decide) (by decide)
  · exact (start_validation_errors storeVal 1 10 99 none 0 envFail
      (by decide)).2.2.1 project10 (by decide) (by decide) (by decide)
  · exact (start_validation_errors storeVal 2 12 22 none 0 envFail
      (by decide)).2.2.2 ⟨12, [1, 2], none⟩ ⟨22, 12, [1]⟩ (by decide)
      (by decide) (by decide) (by decide)

/-- C6 counterexample: task 20 exists but belongs to project 99, not to
the requested project 10; since employee 1 is a member of both, the
start succeeds and creates a TimeEntry instead of failing. -/
theorem start_foreign_task_counterexample :
    taskForeign.projectId = 99 ∧ project10.id = 10 ∧
    startTimeTracking storeForeignTask 1 10 20 none 5 envFail =
      .ok (⟨[⟨0, 1, 10, 20, 5, none, 0, none, true, []⟩],
            [project10], [taskForeign], 1⟩,
           ⟨0, 1, 10, 20, 5, none, 0, none, true, []⟩) := by decide

/-- C10: captureScreenshot answers null whenever its body fails instead
of propagating the failure, and the success of startTimeTracking never
depends on the capture outcome: under any other capture environment the
same start still succeeds, the entry is persisted active with at most
one screenshot, and the route answers 201. -/
theorem capture_failure_never_aborts_start :
    (∀ env msg, captureBody env = .error msg → captureScreenshot env = none) ∧
    (∀ s e p t d now env env2 s1 en,
       startTimeTracking s e p t d now env = .ok (s1, en) →
       ∃ s2 en2, startTimeTracking s e p t d now env2 = .ok (s2, en2) ∧
         en2.isActive = true ∧ en2.screenshots.length ≤ 1 ∧ en2 ∈ s2.entries ∧
         startHttpStatus (startTimeTracking s e p t d now env2) = 201) := by
  constructor
  · intro env msg h
    unfold captureScreenshot
    rw [h]
  · intro s e p t d now env env2 s1 en h
    obtain ⟨hf, hrest⟩ := startTimeTracking_ok_inv h
    obtain ⟨project, task, hproj, hmem, htask, htm, -, -⟩ :=
      startRestPhase_ok_inv hrest
    have hok2 := startRestPhase_ok_of d now env2 hproj hmem htask htm
    have hstart2 : startTimeTracking s e p t d now env2 =
        .ok ({ s with
                entries := s.entries ++
                  [maybeCapturedEntry project env2 (newEntry s.nextEntryId e p t d now)],
                nextEntryId := s.nextEntryId + 1 },
             maybeCapturedEntry project env2 (newEntry s.nextEntryId e p t d now)) := by
      unfold startTimeTracking
      rw [hf]
      exact hok2
    have hfields := maybeCapturedEntry_fields project env2
      (newEntry s.nextEntryId e p t d now)
    refine ⟨_, _, hstart2, ?_, ?_, ?_, ?_⟩
    · rw [hfields.2.2.1]; rfl
    · simpa [newEntry] using hfields.2.2.2.2
    · simp
    · rw [hstart2]; rfl

/-- Witness for C10: with every capture step failing, the start on the
screenshot-enabled project 11 still succeeds with status 201. -/
theorem capture_failure_never_aborts_start_witness :
    captureScreenshot envFail = none ∧
    (∃ s2 en2, startTimeTracking store0 1 11 21 none 0 envFail = .ok (s2, en2) ∧
       en2.isActive = true ∧ en2.screenshots.length ≤ 1 ∧ en2 ∈ s2.entries ∧
       startHttpStatus (startTimeTracking store0 1 11 21 none 0 envFail) = 201) := by
  have hmain := capture_failure_never_aborts_start
  refine ⟨hmain.1 envFail "grab failed" (by decide), ?_⟩
  exact hmain.2 store0 1 11 21 none 0 envOk envFail
    (⟨[⟨0, 1, 11, 21, 0, none, 0, none, true, [77]⟩],
      [project10, project11], [task20, task21], 1⟩ : Store)
    (⟨0, 1, 11, 21, 0, none, 0, none, true, [77]⟩ : TimeEntry) (by decide)

/-- Appending a fresh active entry for an employee with no prior active
entry makes the active-entry lookup answer that entry. -/
theorem findOneActive_after_append {s s1 : Store} {e : Nat} {en : TimeEntry}
    (hnone : findOneActive s e = none) (hents : s1.entries = s.entries ++ [en])
    (hemp : en.employeeId = e) (hact : en.isActive = true) :
    findOneActive s1 e = some en := by
  unfold findOneActive at hnone ⊢
  rw [hents, List.find?_append, hnone]
  simp [List.find?, hemp, hact]

/-- C2 amended: the active-entry check and the insert are separate
store operations, and neither the initialization script nor the
TimeEntry schema declares a unique index on the timeentries collection —
the schema's compound (employeeId, isActive) index exists but is for
query performance only — so when the check phases of two start calls for
the same employee both run before either insert, both calls succeed and
two active entries remain; only a fully sequential second call receives
the conflict error. -/
theorem concurrent_start_race_amended (s : Store) (rq : StartReq)
    (hnone : findOneActive s rq.employeeId = none) (s1 : Store) (en : TimeEntry)
    (hok : startRestPhase s rq.employeeId rq.projectId rq.taskId rq.description
        rq.now rq.env = .ok (s1, en)) :
    ((runSchedule rq rq [false, true, false, true]
        ⟨s, .pending, .pending⟩).phA.isOkDone = true ∧
     (runSchedule rq rq [false, true, false, true]
        ⟨s, .pending, .pending⟩).phB.isOkDone = true ∧
     countActive (runSchedule rq rq [false, true, false, true]
        ⟨s, .pending, .pending⟩).store rq.employeeId = 2) ∧
    ((runSchedule rq rq [false, false, true, true]
        ⟨s, .pending, .pending⟩).phB =
       .done (.error ⟨"Employee already has an active time entry", 400⟩) ∧
     countActive (runSchedule rq rq [false, false, true, true]
        ⟨s, .pending, .pending⟩).store rq.employeeId = 1) ∧
    ((["employeeId", "isActive"], false) ∈ timeentriesIndexes ∧
     ∀ ix ∈ timeentriesIndexes, ix.2 = false) := by
  obtain ⟨project, task, hproj, hmem, htask, htm, hen, hs1⟩ :=
    startRestPhase_ok_inv hok
  have hproj1 : findProject s1 rq.projectId = some project := by
    rw [hs1]; exact hproj
  have htask1 : findTask s1 rq.taskId = some task := by
    rw [hs1]; exact htask
  have hokB := startRestPhase_ok_of rq.description rq.now rq.env
    hproj1 hmem htask1 htm
  have hfA := maybeCapturedEntry_fields project rq.env
    (newEntry s.nextEntryId rq.employeeId rq.projectId rq.taskId rq.description rq.now)
  rw [← hen] at hfA
  have hempA : en.employeeId = rq.employeeId := by rw [hfA.2.1]; rfl
  have hactA : en.isActive = true := by rw [hfA.2.2.1]; rfl
  have hfB := maybeCapturedEntry_fields project rq.env
    (newEntry s1.nextEntryId rq.employeeId rq.projectId rq.taskId rq.description rq.now)
  have hempB : (maybeCapturedEntry project rq.env
      (newEntry s1.nextEntryId rq.employeeId rq.projectId rq.taskId rq.description
        rq.now)).employeeId = rq.employeeId := by
    rw [hfB.2.1]; rfl
  have hactB : (maybeCapturedEntry project rq.env
      (newEntry s1.nextEntryId rq.employeeId rq.projectId rq.taskId rq.description
        rq.now)).isActive = true := by
    rw [hfB.2.2.1]; rfl
  have hents1 : s1.entries = s.entries ++ [en] := by rw [hs1]
  have h1 : stepConc rq rq false ⟨s, .pending, .pending⟩ =
      ⟨s, .checked false, .pending⟩ := by
    simp [stepConc, stepReq, hnone]
  have h2 : stepConc rq rq true ⟨s, .checked false, .pending⟩ =
      ⟨s, .checked false, .checked false⟩ := by
    simp [stepConc, stepReq, hnone]
  have h3 : stepConc rq rq false ⟨s, .checked false, .checked false⟩ =
      ⟨s1, .done (.ok en), .checked false⟩ := by
    simp [stepConc, stepReq, hok]
  have h4 : stepConc rq rq true ⟨s1, .done (.ok en), .checked false⟩ =
      ⟨{ s1 with
          entries := s1.entries ++ [maybeCapturedEntry project rq.env
            (newEntry s1.nextEntryId rq.employeeId rq.projectId rq.taskId
              rq.description rq.now)],
          nextEntryId := s1.nextEntryId + 1 },
       .done (.ok en),
       .done (.ok (maybeCapturedEntry project rq.env
         (newEntry s1.nextEntryId rq.employeeId rq.projectId rq.taskId
           rq.description rq.now)))⟩ := by
    simp [stepConc, stepReq, hokB]
  have hrun : runSchedule rq rq [false, true, false, true]
      ⟨s, .pending, .pending⟩ =
      ⟨{ s1 with
          entries := s1.entries ++ [maybeCapturedEntry project rq.env
            (newEntry s1.nextEntryId rq.employeeId rq.projectId rq.taskId
              rq.description rq.now)],
          nextEntryId := s1.nextEntryId + 1 },
       .done (.ok en),
       .done (.ok (maybeCapturedEntry project rq.env
         (newEntry s1.nextEntryId rq.employeeId rq.projectId rq.taskId
           rq.description rq.now)))⟩ := by
    simp only [runSchedule, List.foldl]
    rw [h1, h2, h3, h4]
  have hfindA : findOneActive s1 rq.employeeId = some en :=
    findOneActive_after_append hnone hents1 hempA hactA
  have h3s : stepConc rq rq false ⟨s, .checked false, .pending⟩ =
      ⟨s1, .done (.ok en), .pending⟩ := by
    simp [stepConc, stepReq, hok]
  have h4s : stepConc rq rq true ⟨s1, .done (.ok en), .pending⟩ =
      ⟨s1, .done (.ok en), .checked true⟩ := by
    simp [stepConc, stepReq, hfindA]
  have h5s : stepConc rq rq true ⟨s1, .done (.ok en), .checked true⟩ =
      ⟨s1, .done (.ok en),
       .done (.error ⟨"Employee already has an active time entry", 400⟩)⟩ := by
    simp [stepConc, stepReq]
  have hrunseq : runSchedule rq rq [false, false, true, true]
      ⟨s, .pending, .pending⟩ =
      ⟨s1, .done (.ok en),
       .done (.error ⟨"Employee already has an active time entry", 400⟩)⟩ := by
    simp only [runSchedule, List.foldl]
    rw [h1, h3s, h4s, h5s]
  have hcount1 : countActive s1 rq.employeeId = 1 := by
    unfold countActive
    rw [hents1, List.filter_append, filter_active_nil hnone]
    simp [hempA, hactA]
  refine ⟨⟨?_, ?_, ?_⟩, ⟨?_, ?_⟩, ?_⟩
  · rw [hrun]; rfl
  · rw [hrun]; rfl
  · rw [hrun]
    unfold countActive
    simp only [hents1, List.filter_append, filter_active_nil hnone]
    simp [hempA, hactA, hempB, hactB]
  · rw [hrunseq]
  · rw [hrunseq]; exact hcount1
  · decide

/-- Witness for C2's amended statement at the concrete empty store. -/
theorem concurrent_start_race_amended_witness :
    countActive (runSchedule rq0 rq0 [false, true, false, true]
      ⟨store0, .pending, .pending⟩).store 1 = 2 ∧
    (runSchedule rq0 rq0 [false, false, true, true]
      ⟨store0, .pending, .pending⟩).phB =
        .done (.error ⟨"Employee already has an active time entry", 400⟩) := by
  have hmain := concurrent_start_race_amended store0 rq0 (by decide)
    (⟨[⟨0, 1, 10, 20, 0, none, 0, none, true, []⟩],
      [project10, project11], [task20, task21], 1⟩ : Store)
    (⟨0, 1, 10, 20, 0, none, 0, none, true, []⟩ : TimeEntry) (by decide)
  exact ⟨hmain.1.2.2, hmain.2.1.1⟩

/-- C2 counterexample: on an empty store, two start requests for
employee 1 whose check phases interleave before either insert both end
in a success response and leave two active entries for employee 1 —
neither caller receives the conflict error — and of all the indexes
declared on the timeentries collection, by the initialization script or
by the schema (including the compound (employeeId, isActive) one), none
is unique. -/
theorem concurrent_start_race_counterexample :
    (runSchedule rq0 rq0 [false, true, false, true]
        ⟨store0, .pending, .pending⟩).phA.isOkDone = true ∧
    (runSchedule rq0 rq0 [false, true, false, true]
        ⟨store0, .pending, .pending⟩).phB.isOkDone = true ∧
    countActive (runSchedule rq0 rq0 [false, true, false, true]
        ⟨store0, .pending, .pending⟩).store 1 = 2 ∧
    (["employeeId", "isActive"], false) ∈ timeentriesIndexes ∧
    (∀ ix ∈ timeentriesIndexes, ix.2 = false) := by decide

end MercorTT
